import Mathlib

/-!
Verification of `llama_hub/tools/recursive_retriever/base.py`.

The file under verification is a thin adapter over an LLM orchestration
framework.  We embed the adapter's own logic shallowly: the framework
objects the adapter constructs (index nodes, tools, retrievers, query
engines, response synthesizers, agents) become Lean structures that record
exactly the configuration the Python code passes to the framework, and the
framework's runtime behaviour (similarity scoring, sub-agent execution,
response synthesis) is supplied as explicit function parameters.  Python
`dict`s are modelled as association lists in insertion order (a Python
`dict` preserves insertion order and has unique keys).
-/

/-- Opaque unit of source text (`llama_index.readers.schema.base.Document`).
Only its identity matters to the adapter. -/
structure Document where
  text : String
  deriving DecidableEq, Repr

/-- `llama_index.schema.IndexNode`: a node with synthetic text and an
`index_id` naming the object the node routes to. -/
structure IndexNode where
  text : String
  index_id : String
  deriving DecidableEq, Repr

/-- A query engine as configured by the adapter: either a vector-similarity
engine or a summary engine, each built over a document list
(`VectorStoreIndex.from_documents(...).as_query_engine()` resp.
`SummaryIndex.from_documents(...).as_query_engine()`). -/
inductive QueryEngine where
  | vectorEngine (documents : List Document)
  | summaryEngine (documents : List Document)
  deriving DecidableEq, Repr

/-- `llama_index.tools.ToolMetadata`: name plus natural-language description. -/
structure ToolMetadata where
  name : String
  description : String
  deriving DecidableEq, Repr

/-- `llama_index.tools.QueryEngineTool`: a query engine with its metadata. -/
structure QueryEngineTool where
  query_engine : QueryEngine
  metadata : ToolMetadata
  deriving DecidableEq, Repr

/-- Shared runtime configuration (`llama_index.ServiceContext`); the adapter
only reads its `llm` field, so we record just that, opaquely. -/
structure ServiceContext where
  llm : String
  deriving DecidableEq, Repr

/-- `ServiceContext.from_defaults()`: the defaulted configuration. -/
def ServiceContext.from_defaults : ServiceContext :=
  { llm := "default_llm" }

/-- A sub-agent as produced by `agent.from_tools(query_engine_tools,
llm=service_context.llm, verbose=True)`: it records the registered tools
and the construction arguments. -/
structure SubAgent where
  tools : List QueryEngineTool
  llm : String
  verbose : Bool
  deriving DecidableEq, Repr

/-- The retriever returned by
`VectorStoreIndex(nodes, ...).as_retriever(similarity_top_k=1)`:
a single vector index over `nodes`, configured with `similarity_top_k`. -/
structure VectorRetriever where
  nodes : List IndexNode
  similarity_top_k : Nat
  deriving DecidableEq, Repr

/-- `llama_index.retrievers.RecursiveRetriever` as configured by the adapter:
a root retriever id, a dict of retrievers, and a dict of per-key query
engines (the sub-agents). -/
structure RecursiveRetriever where
  root_id : String
  retriever_dict : List (String × VectorRetriever)
  query_engine_dict : List (String × SubAgent)
  verbose : Bool
  deriving DecidableEq, Repr

/-- The response synthesizer obtained from `get_response_synthesizer(...)`;
the adapter fixes only its `response_mode`. -/
structure ResponseSynthesizer where
  response_mode : String
  deriving DecidableEq, Repr

/-- `RetrieverQueryEngine.from_args(recursive_retriever,
response_synthesizer=..., ...)`: the top-level engine. -/
structure RetrieverQueryEngine where
  retriever : RecursiveRetriever
  response_synthesizer : ResponseSynthesizer
  deriving DecidableEq, Repr

/-- The state of a constructed `RecursiveRetrieverToolSpec`: the fields the
Python `__init__` assigns to `self`. -/
structure RecursiveRetrieverToolSpec where
  query_engine : RetrieverQueryEngine
  keys : List String
  deriving DecidableEq, Repr

/-- `DEFAULT_SUMMARY.format(key=key)`: the module-level template
instantiated at a key (the Python triple-quoted string opens and closes
with a newline). -/
def DEFAULT_SUMMARY (key : String) : String :=
  "\nThis content contains information about " ++ key ++
  ".\nUse this index if you need to lookup specific facts about " ++ key ++
  ".\nDo not use this index if you want to analyze multiple keys.\n"

/-- `RecursiveRetrieverToolSpec._create_subagent`: builds a vector engine
and a summary engine over `documents`, wraps each as a described tool, and
constructs the agent from the two tools. -/
def _create_subagent (documents : List Document) (service_context : ServiceContext)
    (key : String) : SubAgent :=
  let vector_engine := QueryEngine.vectorEngine documents
  let summary_engine := QueryEngine.summaryEngine documents
  let query_engine_tools : List QueryEngineTool :=
    [ { query_engine := vector_engine,
        metadata :=
          { name := "vector_tool",
            description := "Useful for summarization questions related to " ++ key } },
      { query_engine := summary_engine,
        metadata :=
          { name := "summary_tool",
            description := "Useful for retrieving specific context from " ++ key } } ]
  { tools := query_engine_tools, llm := service_context.llm, verbose := true }

/-- `RecursiveRetrieverToolSpec.__init__`: per key, create a sub-agent and
an `IndexNode` with the templated summary text and `index_id=key`; build a
single vector index over all nodes as a `similarity_top_k=1` retriever;
compose it with the sub-agent dict in a `RecursiveRetriever`; wrap that in
a `RetrieverQueryEngine` with a `"compact"`-mode response synthesizer;
store the engine and the agent dict's keys. -/
def RecursiveRetrieverToolSpec.init
    (agent_documents : List (String × List Document))
    (service_context? : Option ServiceContext) : RecursiveRetrieverToolSpec :=
  let service_context := service_context?.getD ServiceContext.from_defaults
  let agents : List (String × SubAgent) :=
    agent_documents.map (fun p => (p.1, _create_subagent p.2 service_context p.1))
  let nodes : List IndexNode :=
    agent_documents.map (fun p => { text := DEFAULT_SUMMARY p.1, index_id := p.1 })
  let vector_retriever : VectorRetriever :=
    { nodes := nodes, similarity_top_k := 1 }
  let recursive_retriever : RecursiveRetriever :=
    { root_id := "vector",
      retriever_dict := [("vector", vector_retriever)],
      query_engine_dict := agents,
      verbose := true }
  let response_synthesizer : ResponseSynthesizer :=
    { response_mode := "compact" }
  { query_engine :=
      { retriever := recursive_retriever,
        response_synthesizer := response_synthesizer },
    keys := agents.map Prod.fst }

/-- `RecursiveRetrieverToolSpec.query_keys`: returns `self.keys`. -/
def RecursiveRetrieverToolSpec.query_keys (s : RecursiveRetrieverToolSpec) :
    List String :=
  s.keys

/-- Modelled from the spec: the framework's vector retrieval. Given a
similarity score for each node, rank all nodes of the single index by
descending score and return the best `similarity_top_k` of them. -/
def VectorRetriever.retrieve (r : VectorRetriever) (score : IndexNode → Nat) :
    List IndexNode :=
  (r.nodes.insertionSort (fun a b => score b ≤ score a)).take r.similarity_top_k

/-- Modelled from the spec: the routing step of the framework's recursive
retrieval. Look up the root retriever, retrieve with it, and resolve the
query to the `index_id` of the best-matching node, if any. -/
def RecursiveRetriever.resolve (r : RecursiveRetriever) (score : IndexNode → Nat) :
    Option String :=
  match r.retriever_dict.lookup r.root_id with
  | none => none
  | some vr => (vr.retrieve score).head?.map IndexNode.index_id

/-- Modelled from the spec: the framework's two-level dispatch. Resolve the
query to a key, then run the sub-agent registered under that key on the
same query. Returns the sub-agent's answer (if any) together with the list
of keys whose sub-agents were invoked, in invocation order. -/
def RecursiveRetriever.queryWithLog (r : RecursiveRetriever)
    (score : IndexNode → Nat) (run : SubAgent → String → String) (q : String) :
    Option String × List String :=
  match r.resolve score with
  | none => (none, [])
  | some k =>
    match r.query_engine_dict.lookup k with
    | none => (none, [])
    | some a => (some (run a q), [k])

/-- Modelled from the spec: `RetrieverQueryEngine.query`. Dispatch through
the recursive retriever, then pass the routed sub-agent's answer through
the configured response synthesizer (`synth`, supplied by the framework)
to produce the final answer. -/
def RetrieverQueryEngine.queryRun (e : RetrieverQueryEngine)
    (score : IndexNode → Nat) (run : SubAgent → String → String)
    (synth : ResponseSynthesizer → String → String) (q : String) :
    Option String :=
  ((e.retriever.queryWithLog score run q).1).map (synth e.response_synthesizer)

/-- `RecursiveRetrieverToolSpec.query`: returns
`self.query_engine.query(query)` with no further processing. -/
def RecursiveRetrieverToolSpec.query (s : RecursiveRetrieverToolSpec)
    (score : IndexNode → Nat) (run : SubAgent → String → String)
    (synth : ResponseSynthesizer → String → String) (q : String) :
    Option String :=
  s.query_engine.queryRun score run synth q

/-- Opaque framework error (exception) type. -/
abbrev Err := String

/-- `_create_subagent` with fallible framework index construction:
`buildVector` and `buildSummary` stand for
`VectorStoreIndex.from_documents(...).as_query_engine()` and
`SummaryIndex.from_documents(...).as_query_engine()`, which may raise.
The adapter has no try/except, so a raised error is threaded through. -/
def _create_subagentE (buildVector buildSummary : List Document → Except Err QueryEngine)
    (documents : List Document) (service_context : ServiceContext)
    (key : String) : Except Err SubAgent := do
  let vector_engine ← buildVector documents
  let summary_engine ← buildSummary documents
  let query_engine_tools : List QueryEngineTool :=
    [ { query_engine := vector_engine,
        metadata :=
          { name := "vector_tool",
            description := "Useful for summarization questions related to " ++ key } },
      { query_engine := summary_engine,
        metadata :=
          { name := "summary_tool",
            description := "Useful for retrieving specific context from " ++ key } } ]
  pure { tools := query_engine_tools, llm := service_context.llm, verbose := true }

/-- `__init__` with fallible framework calls: the per-key sub-agent
construction may raise, and the adapter catches nothing, so the first
error aborts construction and propagates unmodified. -/
def RecursiveRetrieverToolSpec.initE
    (buildVector buildSummary : List Document → Except Err QueryEngine)
    (agent_documents : List (String × List Document))
    (service_context? : Option ServiceContext) :
    Except Err RecursiveRetrieverToolSpec := do
  let service_context := service_context?.getD ServiceContext.from_defaults
  let agents : List (String × SubAgent) ←
    agent_documents.mapM (fun p => do
      let a ← _create_subagentE buildVector buildSummary p.2 service_context p.1
      pure (p.1, a))
  let nodes : List IndexNode :=
    agent_documents.map (fun p => { text := DEFAULT_SUMMARY p.1, index_id := p.1 })
  let vector_retriever : VectorRetriever :=
    { nodes := nodes, similarity_top_k := 1 }
  let recursive_retriever : RecursiveRetriever :=
    { root_id := "vector",
      retriever_dict := [("vector", vector_retriever)],
      query_engine_dict := agents,
      verbose := true }
  let response_synthesizer : ResponseSynthesizer :=
    { response_mode := "compact" }
  pure
    { query_engine :=
        { retriever := recursive_retriever,
          response_synthesizer := response_synthesizer },
      keys := agents.map Prod.fst }

/-- `query` with a fallible sub-agent and synthesizer: the adapter's
`query` adds no handling around `self.query_engine.query`, so any error
from dispatch, the sub-agent, or synthesis propagates. -/
def RecursiveRetrieverToolSpec.queryE (s : RecursiveRetrieverToolSpec)
    (score : IndexNode → Nat) (run : SubAgent → String → Except Err String)
    (synth : ResponseSynthesizer → String → Except Err String) (q : String) :
    Except Err (Option String) :=
  match s.query_engine.retriever.resolve score with
  | none => pure none
  | some k =>
    match s.query_engine.retriever.query_engine_dict.lookup k with
    | none => pure none
    | some a => do
      let ans ← run a q
      let final ← synth s.query_engine.response_synthesizer ans
      pure (some final)

/-- The routing nodes held by the root retriever of a constructed spec
(empty if the root id is absent from the retriever dict). -/
def RecursiveRetrieverToolSpec.routingNodes (s : RecursiveRetrieverToolSpec) :
    List IndexNode :=
  match s.query_engine.retriever.retriever_dict.lookup s.query_engine.retriever.root_id with
  | none => []
  | some vr => vr.nodes

/-- In an association list, a key occurring among the first components is
found by `List.lookup`. -/
theorem lookup_isSome_of_mem_keys {β : Type} {k : String} {l : List (String × β)}
    (h : k ∈ l.map Prod.fst) : ∃ v, l.lookup k = some v := by
  induction l with
  | nil => simp at h
  | cons a t ih =>
    obtain ⟨a1, a2⟩ := a
    by_cases hk : k = a1
    · exact ⟨a2, by simp [List.lookup, hk]⟩
    · have hmem : k ∈ t.map Prod.fst := by
        simp only [List.map_cons, List.mem_cons] at h
        rcases h with h | h
        · exact absurd h hk
        · exact h
      rcases ih hmem with ⟨v, hv⟩
      refine ⟨v, ?_⟩
      have hbeq : (k == a1) = false := beq_false_of_ne hk
      simp [List.lookup, hbeq, hv]

/-- The head of a list, when present, is a member. -/
theorem mem_of_head?_eq {α : Type} {l : List α} {x : α} (h : l.head? = some x) :
    x ∈ l := by
  cases l with
  | nil => simp at h
  | cons a t =>
    simp only [List.head?_cons, Option.some.injEq] at h
    simp [h.symm]

/-- C1: for every construction input mapping, `query_keys()` returns exactly
the mapping's key set — every input key is in the result and nothing else,
order aside. -/
theorem C1_query_keys_exact
    (agent_documents : List (String × List Document))
    (service_context? : Option ServiceContext) (k : String) :
    k ∈ (RecursiveRetrieverToolSpec.init agent_documents service_context?).query_keys ↔
      k ∈ agent_documents.map Prod.fst := by
  simp [RecursiveRetrieverToolSpec.init, RecursiveRetrieverToolSpec.query_keys]

/-- C2: after construction with key set `K`, the routing-node identifiers are
exactly the sub-agent dict's keys, the routing-node count equals `|K|`, and
(for a genuine dict input, i.e. distinct keys) the identifiers are pairwise
distinct, so identifier set and key set are in bijection. -/
theorem C2_routing_identifiers_bijection
    (agent_documents : List (String × List Document))
    (service_context? : Option ServiceContext)
    (h : (agent_documents.map Prod.fst).Nodup) :
    ((RecursiveRetrieverToolSpec.init agent_documents service_context?).routingNodes).map
        IndexNode.index_id =
      ((RecursiveRetrieverToolSpec.init agent_documents
          service_context?).query_engine.retriever.query_engine_dict).map Prod.fst ∧
    ((RecursiveRetrieverToolSpec.init agent_documents service_context?).routingNodes).length =
      agent_documents.length ∧
    (((RecursiveRetrieverToolSpec.init agent_documents service_context?).routingNodes).map
        IndexNode.index_id).Nodup := by
  refine ⟨?_, ?_, ?_⟩
  · simp [RecursiveRetrieverToolSpec.init, RecursiveRetrieverToolSpec.routingNodes,
      List.lookup]
  · simp [RecursiveRetrieverToolSpec.init, RecursiveRetrieverToolSpec.routingNodes,
      List.lookup]
  · have hmap : ((RecursiveRetrieverToolSpec.init agent_documents
        service_context?).routingNodes).map IndexNode.index_id =
        agent_documents.map Prod.fst := by
      simp [RecursiveRetrieverToolSpec.init, RecursiveRetrieverToolSpec.routingNodes,
        List.lookup]
    rw [hmap]
    exact h

/-- C2 witness: the bijection theorem instantiated at a concrete two-key
mapping. -/
theorem C2_witness :
    (([("alpha", ([] : List Document)), ("beta", [])].map Prod.fst).Nodup) ∧
    (((RecursiveRetrieverToolSpec.init [("alpha", []), ("beta", [])] none).routingNodes).map
        IndexNode.index_id =
      ((RecursiveRetrieverToolSpec.init [("alpha", []), ("beta", [])]
          none).query_engine.retriever.query_engine_dict).map Prod.fst ∧
    ((RecursiveRetrieverToolSpec.init [("alpha", []), ("beta", [])] none).routingNodes).length =
      ([("alpha", ([] : List Document)), ("beta", [])] : List _).length ∧
    (((RecursiveRetrieverToolSpec.init [("alpha", []), ("beta", [])] none).routingNodes).map
        IndexNode.index_id).Nodup) :=
  ⟨by decide, C2_routing_identifiers_bijection [("alpha", []), ("beta", [])] none (by decide)⟩

/-- C3: for every key and document list, `_create_subagent` builds an agent
with exactly two tools — one wrapping a vector-similarity engine and one
wrapping a summary engine, both over the given documents — and each tool's
description contains the key string. -/
theorem C3_subagent_two_tools
    (documents : List Document) (service_context : ServiceContext) (key : String) :
    (_create_subagent documents service_context key).tools.length = 2 ∧
    ∃ t1 t2, (_create_subagent documents service_context key).tools = [t1, t2] ∧
      t1.query_engine = QueryEngine.vectorEngine documents ∧
      t2.query_engine = QueryEngine.summaryEngine documents ∧
      (∃ p q, t1.metadata.description = p ++ key ++ q) ∧
      (∃ p q, t2.metadata.description = p ++ key ++ q) := by
  refine ⟨rfl, _, _, rfl, rfl, rfl,
    ⟨"Useful for summarization questions related to ", "", ?_⟩,
    ⟨"Useful for retrieving specific context from ", "", ?_⟩⟩
  · simp [_create_subagent]
  · simp [_create_subagent]

/-- C5: the routing node built for each key has text equal to the fixed
`DEFAULT_SUMMARY` template instantiated with the key and identifier equal to
the key itself; the constructor produces exactly this list of nodes. -/
theorem C5_routing_node_text_and_id
    (agent_documents : List (String × List Document))
    (service_context? : Option ServiceContext) :
    (RecursiveRetrieverToolSpec.init agent_documents service_context?).routingNodes =
      agent_documents.map (fun p => { text := DEFAULT_SUMMARY p.1, index_id := p.1 }) := by
  simp [RecursiveRetrieverToolSpec.init, RecursiveRetrieverToolSpec.routingNodes,
    List.lookup]

/-- C10: the two tools carry the constant names `"vector_tool"` and
`"summary_tool"` for every key, and the descriptions are cross-assigned:
the tool named `"vector_tool"` wraps the vector engine but is described as
useful for summarization questions, while the tool named `"summary_tool"`
wraps the summary engine but is described as useful for retrieving specific
context. -/
theorem C10_tool_names_cross_descriptions
    (documents : List Document) (service_context : ServiceContext) (key : String) :
    (_create_subagent documents service_context key).tools.map
        (fun t => t.metadata.name) = ["vector_tool", "summary_tool"] ∧
    ∃ t1 t2, (_create_subagent documents service_context key).tools = [t1, t2] ∧
      t1.metadata.name = "vector_tool" ∧
      t1.query_engine = QueryEngine.vectorEngine documents ∧
      t1.metadata.description = "Useful for summarization questions related to " ++ key ∧
      t2.metadata.name = "summary_tool" ∧
      t2.query_engine = QueryEngine.summaryEngine documents ∧
      t2.metadata.description = "Useful for retrieving specific context from " ++ key :=
  ⟨rfl, _, _, rfl, rfl, rfl, rfl, rfl, rfl, rfl⟩

/-- A key the constructed routing retriever resolves to is always a key of
the sub-agent dict: the routing nodes' identifiers are exactly the
sub-agent keys. -/
theorem resolve_mem_query_engine_keys
    (agent_documents : List (String × List Document))
    (service_context? : Option ServiceContext)
    (score : IndexNode → Nat) (k : String)
    (h : (RecursiveRetrieverToolSpec.init agent_documents
        service_context?).query_engine.retriever.resolve score = some k) :
    k ∈ ((RecursiveRetrieverToolSpec.init agent_documents
        service_context?).query_engine.retriever.query_engine_dict).map Prod.fst := by
  have hres : (RecursiveRetrieverToolSpec.init agent_documents
      service_context?).query_engine.retriever.resolve score =
      ((VectorRetriever.retrieve
          { nodes := agent_documents.map
              (fun p => { text := DEFAULT_SUMMARY p.1, index_id := p.1 }),
            similarity_top_k := 1 } score).head?).map IndexNode.index_id := rfl
  rw [hres] at h
  rcases Option.map_eq_some'.mp h with ⟨n, hn, hid⟩
  have htake : n ∈ (((agent_documents.map
      (fun p => ({ text := DEFAULT_SUMMARY p.1, index_id := p.1 } : IndexNode))).insertionSort
        (fun a b => score b ≤ score a)).take 1) := mem_of_head?_eq hn
  have hsorted := List.take_subset 1 _ htake
  have hnodes : n ∈ agent_documents.map
      (fun p => ({ text := DEFAULT_SUMMARY p.1, index_id := p.1 } : IndexNode)) :=
    (List.perm_insertionSort (fun a b => score b ≤ score a) _).mem_iff.mp hsorted
  rcases List.mem_map.mp hnodes with ⟨p, hp, hpn⟩
  have hkeys : ((RecursiveRetrieverToolSpec.init agent_documents
      service_context?).query_engine.retriever.query_engine_dict).map Prod.fst =
      agent_documents.map Prod.fst := by
    simp [RecursiveRetrieverToolSpec.init]
  rw [hkeys]
  have : n.index_id = p.1 := by rw [← hpn]
  rw [← hid, this]
  exact List.mem_map_of_mem Prod.fst hp

/-- When the routing step resolves to a key that is registered, exactly that
key's sub-agent is invoked. -/
theorem queryWithLog_invokes_resolved
    (r : RecursiveRetriever) (score : IndexNode → Nat)
    (run : SubAgent → String → String) (q : String) (k : String)
    (hres : r.resolve score = some k)
    (hmem : k ∈ r.query_engine_dict.map Prod.fst) :
    (r.queryWithLog score run q).2 = [k] := by
  rcases lookup_isSome_of_mem_keys hmem with ⟨a, ha⟩
  simp [RecursiveRetriever.queryWithLog, hres, ha]

/-- C4: the constructor's retriever dict holds a single vector index over all
routing nodes, configured with `similarity_top_k = 1`, so retrieval returns
at most one node and routing resolves to at most one key for any query. -/
theorem C4_single_index_top_k_one
    (agent_documents : List (String × List Document))
    (service_context? : Option ServiceContext) :
    ∃ vr : VectorRetriever,
      (RecursiveRetrieverToolSpec.init agent_documents
          service_context?).query_engine.retriever.retriever_dict = [("vector", vr)] ∧
      vr.similarity_top_k = 1 ∧
      vr.nodes = (RecursiveRetrieverToolSpec.init agent_documents
          service_context?).routingNodes ∧
      ∀ score : IndexNode → Nat, (vr.retrieve score).length ≤ 1 := by
  refine ⟨_, rfl, rfl, ?_, ?_⟩
  · simp [RecursiveRetrieverToolSpec.init, RecursiveRetrieverToolSpec.routingNodes,
      List.lookup]
  · intro score
    exact List.length_take_le 1 _

/-- C6: for every query whose routing match is `k`, dispatch consults only
the sub-agent bound to `k`: the invocation log is exactly `[k]`. -/
theorem C6_only_routed_subagent_invoked
    (agent_documents : List (String × List Document))
    (service_context? : Option ServiceContext)
    (score : IndexNode → Nat) (run : SubAgent → String → String)
    (q : String) (k : String)
    (h : (RecursiveRetrieverToolSpec.init agent_documents
        service_context?).query_engine.retriever.resolve score = some k) :
    ((RecursiveRetrieverToolSpec.init agent_documents
        service_context?).query_engine.retriever.queryWithLog score run q).2 = [k] :=
  queryWithLog_invokes_resolved _ score run q k h
    (resolve_mem_query_engine_keys agent_documents service_context? score k h)

/-- C6 witness: with keys `alpha` and `beta` and a score preferring `alpha`,
the routing resolves to `alpha` and only `alpha`'s sub-agent is invoked. -/
theorem C6_witness :
    (RecursiveRetrieverToolSpec.init [("alpha", []), ("beta", [])]
        none).query_engine.retriever.resolve
        (fun n => if n.index_id = "alpha" then 2 else 1) = some "alpha" ∧
    ((RecursiveRetrieverToolSpec.init [("alpha", []), ("beta", [])]
        none).query_engine.retriever.queryWithLog
        (fun n => if n.index_id = "alpha" then 2 else 1)
        (fun _ _ => "answer") "which?").2 = ["alpha"] :=
  ⟨by decide, C6_only_routed_subagent_invoked [("alpha", []), ("beta", [])] none
    (fun n => if n.index_id = "alpha" then 2 else 1)
    (fun _ _ => "answer") "which?" "alpha" (by decide)⟩

/-- C7: whenever dispatch yields a sub-agent answer, the facade's `query`
returns that answer passed through the response synthesizer, and that
synthesizer is configured in `"compact"` response mode. -/
theorem C7_compact_synthesis
    (agent_documents : List (String × List Document))
    (service_context? : Option ServiceContext)
    (score : IndexNode → Nat) (run : SubAgent → String → String)
    (synth : ResponseSynthesizer → String → String) (q ans : String)
    (h : ((RecursiveRetrieverToolSpec.init agent_documents
        service_context?).query_engine.retriever.queryWithLog score run q).1 = some ans) :
    (RecursiveRetrieverToolSpec.init agent_documents service_context?).query
        score run synth q = some (synth { response_mode := "compact" } ans) := by
  simp [RecursiveRetrieverToolSpec.query, RetrieverQueryEngine.queryRun, h]
  rfl

/-- C7 witness: with a concrete two-key mapping, a routed answer `"raw"` is
returned through the compact-mode synthesizer. -/
theorem C7_witness :
    ((RecursiveRetrieverToolSpec.init [("alpha", []), ("beta", [])]
        none).query_engine.retriever.queryWithLog
        (fun n => if n.index_id = "alpha" then 2 else 1)
        (fun _ _ => "raw") "which?").1 = some "raw" ∧
    (RecursiveRetrieverToolSpec.init [("alpha", []), ("beta", [])] none).query
        (fun n => if n.index_id = "alpha" then 2 else 1)
        (fun _ _ => "raw") (fun rs a => rs.response_mode ++ ":" ++ a) "which?" =
      some ((fun rs a => rs.response_mode ++ ":" ++ a)
        ({ response_mode := "compact" } : ResponseSynthesizer) "raw") :=
  ⟨by decide, C7_compact_synthesis [("alpha", []), ("beta", [])] none
    (fun n => if n.index_id = "alpha" then 2 else 1)
    (fun _ _ => "raw") (fun rs a => rs.response_mode ++ ":" ++ a) "which?" "raw" (by decide)⟩

/-- Bind on a raised `Except` error short-circuits. -/
theorem except_bind_error {α β : Type} (e : Err) (g : α → Except Err β) :
    (Except.error e >>= g) = Except.error e := rfl

/-- Bind on a successful `Except` value applies the continuation. -/
theorem except_bind_ok {α β : Type} (x : α) (g : α → Except Err β) :
    (Except.ok x >>= g) = g x := rfl

/-- Mapping over a raised `Except` error keeps the error. -/
theorem except_map_error {α β : Type} (f : α → β) (e : Err) :
    (f <$> (Except.error e : Except Err α)) = Except.error e := rfl

/-- C8: the adapter layer contains no error handling: a failure in an
underlying framework call — vector-index construction, summary-index
construction, sub-agent execution, or response synthesis — propagates to
the caller unmodified, for construction as well as for `query`. -/
theorem C8_failures_propagate_unmodified :
    (∀ (buildVector buildSummary : List Document → Except Err QueryEngine)
        (service_context? : Option ServiceContext)
        (k : String) (docs : List Document) (rest : List (String × List Document)) (e : Err),
        buildVector docs = Except.error e →
        RecursiveRetrieverToolSpec.initE buildVector buildSummary ((k, docs) :: rest)
            service_context? = Except.error e) ∧
    (∀ (buildVector buildSummary : List Document → Except Err QueryEngine)
        (service_context? : Option ServiceContext)
        (k : String) (docs : List Document) (rest : List (String × List Document))
        (e : Err) (v : QueryEngine),
        buildVector docs = Except.ok v →
        buildSummary docs = Except.error e →
        RecursiveRetrieverToolSpec.initE buildVector buildSummary ((k, docs) :: rest)
            service_context? = Except.error e) ∧
    (∀ (s : RecursiveRetrieverToolSpec) (score : IndexNode → Nat)
        (run : SubAgent → String → Except Err String)
        (synth : ResponseSynthesizer → String → Except Err String)
        (q k : String) (a : SubAgent) (e : Err),
        s.query_engine.retriever.resolve score = some k →
        s.query_engine.retriever.query_engine_dict.lookup k = some a →
        run a q = Except.error e →
        s.queryE score run synth q = Except.error e) ∧
    (∀ (s : RecursiveRetrieverToolSpec) (score : IndexNode → Nat)
        (run : SubAgent → String → Except Err String)
        (synth : ResponseSynthesizer → String → Except Err String)
        (q k : String) (a : SubAgent) (ans : String) (e : Err),
        s.query_engine.retriever.resolve score = some k →
        s.query_engine.retriever.query_engine_dict.lookup k = some a →
        run a q = Except.ok ans →
        synth s.query_engine.response_synthesizer ans = Except.error e →
        s.queryE score run synth q = Except.error e) := by
  refine ⟨?_, ?_, ?_, ?_⟩
  · intro buildVector buildSummary service_context? k docs rest e h
    simp [RecursiveRetrieverToolSpec.initE, _create_subagentE, List.mapM_cons,
      List.mapM.loop, h, except_bind_error, except_map_error]
  · intro buildVector buildSummary service_context? k docs rest e v hv h
    simp [RecursiveRetrieverToolSpec.initE, _create_subagentE, List.mapM_cons,
      List.mapM.loop, hv, h, except_bind_ok, except_bind_error, except_map_error]
  · intro s score run synth q k a e h1 h2 h3
    simp [RecursiveRetrieverToolSpec.queryE, h1, h2, h3, except_bind_error]
  · intro s score run synth q k a ans e h1 h2 h3 h4
    simp [RecursiveRetrieverToolSpec.queryE, h1, h2, h3, except_bind_ok, h4,
      except_map_error]

/-- C8 witness: a failing vector-index build aborts construction with the
same error, and a failing sub-agent run surfaces its error from `query`. -/
theorem C8_witness :
    ((fun _ => (Except.error "boom" : Except Err QueryEngine)) ([] : List Document) =
        Except.error "boom") ∧
    RecursiveRetrieverToolSpec.initE (fun _ => Except.error "boom")
        (fun _ => Except.error "boom") [("alpha", [])] none = Except.error "boom" ∧
    ((RecursiveRetrieverToolSpec.init [("alpha", [])]
        none).query_engine.retriever.resolve (fun _ => 1) = some "alpha" ∧
    (RecursiveRetrieverToolSpec.init [("alpha", [])]
        none).query_engine.retriever.query_engine_dict.lookup "alpha" =
        some (_create_subagent [] ServiceContext.from_defaults "alpha") ∧
    (fun (_ : SubAgent) (_ : String) => (Except.error "bad" : Except Err String))
        (_create_subagent [] ServiceContext.from_defaults "alpha") "q?" =
        Except.error "bad" ∧
    (RecursiveRetrieverToolSpec.init [("alpha", [])] none).queryE (fun _ => 1)
        (fun _ _ => Except.error "bad") (fun _ a => Except.ok a) "q?" =
        Except.error "bad") :=
  ⟨rfl,
   C8_failures_propagate_unmodified.1 (fun _ => Except.error "boom")
     (fun _ => Except.error "boom") none "alpha" [] [] "boom" rfl,
   by decide,
   by decide,
   rfl,
   C8_failures_propagate_unmodified.2.2.1
     (RecursiveRetrieverToolSpec.init [("alpha", [])] none) (fun _ => 1)
     (fun _ _ => Except.error "bad") (fun _ a => Except.ok a) "q?" "alpha"
     (_create_subagent [] ServiceContext.from_defaults "alpha") "bad"
     (by decide) (by decide) rfl⟩

/-- C9: construction with an empty key mapping succeeds (no framework call
is made, so even fallible construction returns normally), `query_keys()` is
empty, and routing never resolves to any key. -/
theorem C9_empty_mapping
    (buildVector buildSummary : List Document → Except Err QueryEngine)
    (service_context? : Option ServiceContext) (score : IndexNode → Nat) :
    (∃ s, RecursiveRetrieverToolSpec.initE buildVector buildSummary [] service_context? =
        Except.ok s ∧ s.query_keys = []) ∧
    (RecursiveRetrieverToolSpec.init [] service_context?).query_keys = [] ∧
    (RecursiveRetrieverToolSpec.init [] service_context?).query_engine.retriever.resolve
        score = none := by
  refine ⟨⟨_, rfl, rfl⟩, rfl, rfl⟩
